import Mathlib

/-!
Verification of the Luma3DS exception dump parser
(`luma3ds_exception_dump_parser/__main__.py`) against its specification.

The Python program is shallowly embedded: the input buffer is a `List Nat`
of byte values, `struct.unpack_from` becomes a length check plus a
little-endian read, Python slicing (which clamps to the buffer) becomes
`pySlice`, and the fatal exits / raised exceptions become `Except` errors.
-/

namespace Luma3ds

/-- Errors the decode path of `main` can raise.
`structError` stands for Python's `struct.error` (raised by `unpack_from`
when the buffer is too short for the requested read); `formatError` for
`SystemExit ("Invalid file format")`; `versionError` for
`SystemExit ("Incompatible format version, ...")`. -/
inductive DecodeError where
  | structError
  | formatError
  | versionError
deriving DecidableEq

/-- Little-endian unsigned 32-bit word at byte offset `off`
(`struct.unpack_from ("<I", data, off)` once the length check has passed).
Out-of-range reads default to 0; `decode` only evaluates `u32` after the
corresponding length check, as `unpack_from` does. -/
def u32 (data : List Nat) (off : Nat) : Nat :=
  data.getD off 0 + 256 * data.getD (off + 1) 0 +
    65536 * data.getD (off + 2) 0 + 16777216 * data.getD (off + 3) 0

/-- Python's `data[off : off + len]`: both bounds clamp to the buffer. -/
def pySlice (data : List Nat) (off len : Nat) : List Nat :=
  (data.drop off).take len

/-- The structured record `main` has in hand once the header, the register
words and the three byte regions have been extracted.  `processor` is the
low 16 bits and `coreId` the high 16 bits of the 32-bit processor field;
the three sizes are the header-declared byte counts (the sliced regions may
be shorter when the buffer is truncated). -/
structure Dump where
  version : Nat
  processor : Nat
  coreId : Nat
  exceptionType : Nat
  codeDumpSize : Nat
  stackDumpSize : Nat
  additionalDataSize : Nat
  registers : List Nat
  codeDump : List Nat
  stackDump : List Nat
  additionalData : List Nat
deriving DecidableEq

/-- The decode path of `main`, from the first `unpack_from` to the three
region slices:

* `unpack_from ("<2I", data)` needs 8 bytes, else `struct.error`;
  the two words must be `0xdeadc0de, 0xdeadcafe`, else
  `SystemExit ("Invalid file format")`;
* `unpack_from ("<8I", data, 8)` needs 40 bytes, else `struct.error`;
* `version < (1 <<< 16) ||| 2 = 65538` exits with the version message;
* `unpack_from ("<{nb}I", data, 40)` needs `40 + 4 * nbRegisters` bytes,
  else `struct.error`;
* the code/stack/additional regions are plain Python slices, which clamp. -/
def decode (data : List Nat) : Except DecodeError Dump :=
  if data.length < 8 then .error .structError
  else if ¬ (u32 data 0 = 0xdeadc0de ∧ u32 data 4 = 0xdeadcafe) then .error .formatError
  else if data.length < 40 then .error .structError
  else
    let nbRegisters := u32 data 24 / 4
    let codeDumpSize := u32 data 28
    let stackDumpSize := u32 data 32
    if u32 data 8 < 65538 then .error .versionError
    else if data.length < 40 + 4 * nbRegisters then .error .structError
    else
      let codeOffset := 40 + 4 * nbRegisters
      let stackOffset := codeOffset + codeDumpSize
      let additionalOffset := stackOffset + stackDumpSize
      .ok {
        version := u32 data 8
        processor := u32 data 12 % 65536
        coreId := u32 data 12 / 65536
        exceptionType := u32 data 16
        codeDumpSize := codeDumpSize
        stackDumpSize := stackDumpSize
        additionalDataSize := u32 data 36
        registers := (List.range nbRegisters).map (fun i => u32 data (40 + 4 * i))
        codeDump := pySlice data codeOffset codeDumpSize
        stackDump := pySlice data stackOffset stackDumpSize
        additionalData := pySlice data additionalOffset (u32 data 36) }

/-! ## Hex formatter (`hexdump`) -/

/-- One lowercase hexadecimal digit, as Python's `hex`/`%x` renders it. -/
def hexDigitChar : Nat → Char
  | 0 => '0' | 1 => '1' | 2 => '2' | 3 => '3' | 4 => '4' | 5 => '5' | 6 => '6' | 7 => '7'
  | 8 => '8' | 9 => '9' | 10 => 'a' | 11 => 'b' | 12 => 'c' | 13 => 'd' | 14 => 'e' | 15 => 'f'
  | _ + 16 => '0'

/-- Hex digits of `n`, least significant first; `fuel` bounds the recursion
(every call passes `fuel = n`, which is enough for any positive `n`). -/
def hexDigitsRev (fuel n : Nat) : List Char :=
  match fuel, n with
  | 0, _ => []
  | _ + 1, 0 => []
  | f + 1, m + 1 => hexDigitChar ((m + 1) % 16) :: hexDigitsRev f ((m + 1) / 16)

/-- Python's `"%x" % n` / `hex(n).replace("0x", "")` for a non-negative `n`:
lowercase hex digits, most significant first, `"0"` for zero. -/
def natToHex (n : Nat) : String :=
  if n = 0 then "0" else String.mk (hexDigitsRev n n).reverse

/-- Left-pad with `'0'` to width `w` (Python's zero-padded conversions). -/
def zfill (w : Nat) (s : String) : String :=
  String.mk (List.replicate (w - s.length) '0') ++ s

/-- Python's `"%08x" % n` on an arbitrary `int`: for a negative value the
sign is part of the padded width. -/
def pyPercent08x (n : Int) : String :=
  if n < 0 then "-" ++ zfill 7 (natToHex (-n).toNat) else zfill 8 (natToHex n.toNat)

/-- Two hex digits of a byte: `hex(h).replace("0x", "")`, left-padded with
`'0'` when a single digit. -/
def byteHex (b : Nat) : String :=
  let s := natToHex b
  if s.length = 1 then "0" ++ s else s

/-- Python's `str.strip(" ")`: drop leading and trailing spaces. -/
def stripSpaces (s : String) : String :=
  String.mk (((s.toList.dropWhile (fun c => c = ' ')).reverse.dropWhile (fun c => c = ' ')).reverse)

/-- Python's `"%-<w>s"`: left-justify with spaces to width `w`. -/
def ljust (w : Nat) (s : String) : String :=
  s ++ String.mk (List.replicate (w - s.length) ' ')

/-- The hex column of one `hexdump` row: two digits and a space per byte,
one extra space before byte index `length // 2 = 8`, then `strip(" ")`. -/
def hexaCol (sub : List Nat) : String :=
  stripSpaces (String.join ((List.range sub.length).map
    (fun h => (if h = 8 then " " else "") ++ byteHex (sub.getD h 0) ++ " ")))

/-- The ASCII column of one `hexdump` row: printable bytes (`0x20 ≤ c < 0x7F`)
as characters, anything else as the separator `'.'`. -/
def textCol (sub : List Nat) : String :=
  String.mk (sub.map (fun c => if 0x20 ≤ c ∧ c < 0x7f then Char.ofNat c else '.'))

/-- One row of `hexdump`: `("%08x:  %-49s  |%s|") % (addr + i, hexa, text)`
with the default row width 16 (so `16 * (2 + 1) + 1 = 49`). -/
def mkLine (a : Int) (sub : List Nat) : String :=
  pyPercent08x a ++ ":  " ++ ljust 49 (hexaCol sub) ++ "  |" ++ textCol sub ++ "|"

/-- The rows `hexdump` builds: one per `i in range(0, len(src), 16)`, the
row at stride index `j` covering `src[16*j : 16*j + 16]` at address
`addr + 16*j`. -/
def hexdumpLines (addr : Int) (src : List Nat) : List String :=
  (List.range ((src.length + 15) / 16)).map
    (fun j => mkLine (addr + 16 * Int.ofNat j) ((src.drop (16 * j)).take 16))

/-- `hexdump(addr, src)` with the default `length=16, sep='.'` (the only
way the program calls it): the rows joined with newlines. -/
def hexdump (addr : Int) (src : List Nat) : String :=
  String.intercalate ("\n") (hexdumpLines addr src)

/-! ## Report renderer (the printing part of `main`) -/

/-- Errors the render path can raise: `indexError` for a Python `IndexError`
(a tuple index out of range), `structError` for `struct.error` from
`unpack_from`, `asciiError` for `UnicodeDecodeError` from `.decode("ascii")`. -/
inductive RenderError where
  | indexError
  | structError
  | asciiError
deriving DecidableEq

/-- `registers[i]`: Python raises `IndexError` past the end of the tuple
(`main` only ever uses non-negative literal indices). -/
def regGet (d : Dump) (i : Nat) : Except RenderError Nat :=
  if i < d.registers.length then .ok (d.registers.getD i 0) else .error .indexError

def handledExceptionNames : List String :=
  ["FIQ", "undefined instruction", "prefetch abort", "data abort"]

/-- `registerNames`: `r0`–`r12`, then `sp, lr, pc, cpsr`, then
`dfsr, ifsr, far`, then `fpexc, fpinst, fpinst2` (23 names). -/
def registerNames : List String :=
  ["r0", "r1", "r2", "r3", "r4", "r5", "r6", "r7", "r8", "r9", "r10", "r11", "r12",
   "sp", "lr", "pc", "cpsr", "dfsr", "ifsr", "far", "fpexc", "fpinst", "fpinst2"]

def svcBreakReasons : List String :=
  ["(svcBreak: panic)", "(svcBreak: assertion failed)", "(svcBreak: user-related)"]

/-- `registerNames[i]` with Python's `IndexError` past the end. -/
def nameGet (i : Nat) : Except RenderError String :=
  if i < registerNames.length then .ok (registerNames.getD i ("")) else .error .indexError

/-- The `faultStatusSources` dict as a partial lookup (`dict.get`). -/
def faultStatusSources : Nat → Option String
  | 0b1 => some ("Alignment")
  | 0b100 => some ("Instruction cache maintenance operation fault")
  | 0b1100 => some ("External Abort on translation - First-level")
  | 0b1110 => some ("External Abort on translation - Second-level")
  | 0b101 => some ("Translation - Section")
  | 0b111 => some ("Translation - Page")
  | 0b11 => some ("Access bit - Section")
  | 0b110 => some ("Access bit - Page")
  | 0b1001 => some ("Domain - Section")
  | 0b1011 => some ("Domain - Page")
  | 0b1101 => some ("Permission - Section")
  | 0b1111 => some ("Permission - Page")
  | 0b1000 => some ("Precise External Abort")
  | 0b10110 => some ("Imprecise External Abort")
  | 0b10 => some ("Debug event")
  | _ => none

/-- Python's `xs[-n:]` for `n ≥ 1`: the last `n` elements (all of `xs` when
it is shorter than `n`). -/
def lastN (n : Nat) (xs : List Nat) : List Nat := xs.drop (xs.length - n)

/-- `unpack_from("<I", bs)[0]`: needs 4 bytes, reads the first 4 LE. -/
def unpackU32first (bs : List Nat) : Except RenderError Nat :=
  if bs.length < 4 then .error .structError
  else .ok (bs.getD 0 0 + 256 * bs.getD 1 0 + 65536 * bs.getD 2 0 + 16777216 * bs.getD 3 0)

/-- `unpack_from("<H", bs)[0]`: needs 2 bytes, reads the first 2 LE. -/
def unpackU16first (bs : List Nat) : Except RenderError Nat :=
  if bs.length < 2 then .error .structError else .ok (bs.getD 0 0 + 256 * bs.getD 1 0)

/-- `unpack_from("<Q", bs, off)[0]`: needs `off + 8` bytes, reads 8 LE. -/
def unpackU64At (bs : List Nat) (off : Nat) : Except RenderError Nat :=
  if bs.length < off + 8 then .error .structError
  else .ok (bs.getD off 0 + 256 * bs.getD (off + 1) 0 + 65536 * bs.getD (off + 2) 0 +
    16777216 * bs.getD (off + 3) 0 + 4294967296 * bs.getD (off + 4) 0 +
    1099511627776 * bs.getD (off + 5) 0 + 281474976710656 * bs.getD (off + 6) 0 +
    72057594037927936 * bs.getD (off + 7) 0)

/-- `svcBreakReasons[registers[0]] if registers[0] < 3 else "(svcBreak)"`,
with the leading space `main` prepends. -/
def svcBreakDetail (d : Dump) : Except RenderError String :=
  (regGet d 0).bind (fun r0 =>
    .ok (" " ++ (if r0 < 3 then svcBreakReasons.getD r0 ("") else "(svcBreak)")))

/-- `typeDetailsStr`: the `if exceptionType == 2: ... elif ...` chain of
`main`, verbatim — including the comparison `(registers[16] & 0x20) == 1`
in the Thumb arm (the value of `& 0x20` is 0 or 32, never 1). -/
def renderTypeDetails (d : Dump) : Except RenderError String :=
  if d.exceptionType = 2 then
    (regGet d 16).bind (fun r16 =>
      if r16 &&& 0x20 = 0 ∧ 4 ≤ d.codeDumpSize then
        (unpackU32first (lastN 4 d.codeDump)).bind (fun instr =>
          if instr = 0xe12fff7e then .ok (" (kernel panic)")
          else if instr = 0xef00003c then svcBreakDetail d
          else .ok (""))
      else if r16 &&& 0x20 = 1 ∧ 2 ≤ d.codeDumpSize then
        (unpackU16first (lastN 2 d.codeDump)).bind (fun instr =>
          if instr = 0xdf3c then svcBreakDetail d else .ok (""))
      else .ok (""))
  else if d.processor ≠ 9 then
    (regGet d 20).bind (fun r20 =>
      if r20 &&& 0x80000000 ≠ 0 then .ok (" (VFP exception)") else .ok (""))
  else .ok ("")

/-- `"Processor: Arm9"` or `"Processor: Arm11 (core N)"`. -/
def processorLine (d : Dump) : String :=
  if d.processor = 9 then "Processor: Arm9"
  else "Processor: Arm11 (core " ++ toString d.coreId ++ ")"

/-- `"Exception type: {0}{1}"`: the name (or `"unknown"` for a type code
past the table) followed by the detail suffix. -/
def exceptionLine (d : Dump) (details : String) : String :=
  "Exception type: " ++
    (if handledExceptionNames.length ≤ d.exceptionType then "unknown"
     else handledExceptionNames.getD d.exceptionType ("")) ++ details

/-- The fault-status section: only for `processor == 11 and
exceptionType >= 2`; `xfsr = registers[18] if exceptionType == 2 else
registers[17]`, looked up by its low 4 bits with default `"Unknown"`. -/
def renderFaultStatus (d : Dump) : Except RenderError (List String) :=
  if d.processor = 11 ∧ 2 ≤ d.exceptionType then
    (regGet d (if d.exceptionType = 2 then 18 else 17)).bind (fun xfsr =>
      .ok (["Fault status: " ++ (faultStatusSources (xfsr &&& 0xf)).getD ("Unknown")]))
  else .ok []

/-- `bytes.decode("ascii")`: fails on any byte `≥ 0x80`. -/
def asciiDecode (bs : List Nat) : Except RenderError String :=
  if bs.all (fun b => b < 128) then .ok (String.mk (bs.map (fun b => Char.ofNat b)))
  else .error .asciiError

/-- The additional-data section. For the Arm11 family: process name
(first 8 bytes, ASCII) and title id (`<Q` at offset 8, 16 hex digits).
For the Arm9 family the bytes go to the file sink (an external collaborator,
out of scope here); `outName` is the path it reports. -/
def renderAdditional (outName : String) (d : Dump) : Except RenderError (List String) :=
  if d.additionalDataSize ≠ 0 then
    if d.processor = 11 then
      (asciiDecode (d.additionalData.take 8)).bind (fun nm =>
        (unpackU64At d.additionalData 8).bind (fun pid =>
          .ok (["Current process: " ++ nm ++ " (" ++ zfill 16 (natToHex pid) ++ ")"])))
    else
      .ok (["Arm9 RAM dumped to " ++ outName ++ ", size " ++ natToHex d.additionalDataSize])
  else .ok []

/-- `makeRegisterLine`: `"{0:<15}{1:<20}{2:<15}{3:<20}"` with the two
register values pre-formatted `"{0:08x}"`. -/
def makeRegisterLine (A : String) (rA : Nat) (B : String) (rB : Nat) : String :=
  ljust 15 A ++ ljust 20 (zfill 8 (natToHex rA)) ++ ljust 15 B ++ ljust 20 (zfill 8 (natToHex rB))

/-- One iteration of the register-table loop at even index `i`: the blank
separator before index 16, then the pair line. -/
def registerPairLines (d : Dump) (i : Nat) : Except RenderError (List String) :=
  (nameGet i).bind (fun nA =>
    (regGet d i).bind (fun rA =>
      (nameGet (i + 1)).bind (fun nB =>
        (regGet d (i + 1)).bind (fun rB =>
          .ok ((if i = 16 then [""] else []) ++ [makeRegisterLine nA rA nB rB])))))

/-- The register table: pairs at `i in range(0, nb - nb % 2, 2)`, then the
odd trailing register alone (`"{0:<15}{1:<20}"`). -/
def registerTableLines (d : Dump) : Except RenderError (List String) :=
  ((List.range (d.registers.length / 2)).mapM (fun j => registerPairLines d (2 * j))).bind
    (fun ls =>
      (if d.registers.length % 2 = 1 then
        (nameGet (d.registers.length - 1)).bind (fun nm =>
          (regGet d (d.registers.length - 1)).bind (fun r =>
            .ok ([ljust 15 nm ++ ljust 20 (zfill 8 (natToHex r))])))
       else .ok []).bind (fun trail => .ok (ls.flatten ++ trail)))

/-- The FAR line, only for `processor == 11 and exceptionType == 3`:
`"{0:<15}{1:<20}Access type: {2}"` with `"Write"` when bit 11 of
`registers[17]` is set. -/
def farLines (d : Dump) : Except RenderError (List String) :=
  if d.processor = 11 ∧ d.exceptionType = 3 then
    (regGet d 19).bind (fun r19 =>
      (regGet d 17).bind (fun r17 =>
        .ok ([ljust 15 ("FAR") ++ ljust 20 (zfill 8 (natToHex r19)) ++ "Access type: " ++
          (if r17 &&& (1 <<< 11) ≠ 0 then "Write" else "Read")])))
  else .ok []

/-- `thumb = registers[16] & 0x20 != 0;
addr = registers[15] - codeDumpSize + (2 if thumb else 4)` (Python `int`
arithmetic: the value may be negative). -/
def codeStartAddr (d : Dump) : Except RenderError Int :=
  (regGet d 16).bind (fun r16 =>
    (regGet d 15).bind (fun r15 =>
      .ok ((r15 : Int) - (d.codeDumpSize : Int) + (if r16 &&& 0x20 ≠ 0 then 2 else 4))))

/-- The code-dump and stack-dump sections. The external disassembler is an
out-of-scope collaborator whose failure `main` swallows (`except: ""`); the
rendering modelled is its fallback, `hexdump` at the computed start address,
then `hexdump` of the stack at `registers[13]` (sp). -/
def codeStackLines (d : Dump) : Except RenderError (List String) :=
  (codeStartAddr d).bind (fun addr =>
    (regGet d 13).bind (fun r13 =>
      .ok (["", "Code dump:", "", hexdump addr d.codeDump,
            "", "Stack dump:", "", hexdump ((r13 : Int)) d.stackDump])))

/-- The whole report, as the ordered list of printed lines, in `main`'s
print order: processor, exception classification, fault status, additional
data, register table, FAR line, code dump, stack dump. -/
def render (outName : String) (d : Dump) : Except RenderError (List String) :=
  (renderTypeDetails d).bind (fun details =>
    (renderFaultStatus d).bind (fun faultLs =>
      (renderAdditional outName d).bind (fun extraLs =>
        (registerTableLines d).bind (fun tableLs =>
          (farLines d).bind (fun farLs =>
            (codeStackLines d).bind (fun csLs =>
              .ok ([processorLine d, exceptionLine d details] ++ faultLs ++ extraLs ++
                ["", "Register dump:", ""] ++ tableLs ++ farLs ++ csLs)))))))

/-! ## Concrete inputs used to instantiate the theorems -/

/-- Is `c` one of the sixteen lowercase hexadecimal digit characters? -/
def isLowerHexDigit (c : Char) : Bool := ("0123456789abcdef".toList).contains c

/-- The 8 magic bytes `0xDEADC0DE, 0xDEADCAFE` little-endian. -/
def magicBytes : List Nat := [0xde, 0xc0, 0xad, 0xde, 0xfe, 0xca, 0xad, 0xde]

/-- A 40-byte buffer: valid magic, version `0x00010001` (one minor too old),
all remaining header fields zero. -/
def buf40v1 : List Nat := magicBytes ++ [1, 0, 1, 0] ++ List.replicate 28 0

/-- A 40-byte buffer: valid magic, version `0x00010002`, processor 9, zero
registers, but `codeDumpSize = 4` declared with no bytes behind it. -/
def buf40code4 : List Nat :=
  magicBytes ++ [2, 0, 1, 0] ++ [9, 0, 0, 0] ++ List.replicate 12 0 ++
    [4, 0, 0, 0] ++ List.replicate 8 0

/-- A decoded dump with exception type 2 whose register tuple stops at
index 15 (16 registers): `cpsr` (index 16) is absent. -/
def dump16 : Dump :=
  { version := 65538, processor := 11, coreId := 0, exceptionType := 2,
    codeDumpSize := 0, stackDumpSize := 0, additionalDataSize := 0,
    registers := List.replicate 16 0, codeDump := [], stackDump := [],
    additionalData := [] }

/-- A decoded Arm9 dump with 21 registers and empty regions. -/
def dump21 : Dump :=
  { version := 65538, processor := 9, coreId := 0, exceptionType := 0,
    codeDumpSize := 0, stackDumpSize := 0, additionalDataSize := 0,
    registers := List.replicate 21 0, codeDump := [], stackDump := [],
    additionalData := [] }

/-- A decoded dump in Thumb mode (`cpsr = 0x20`) whose 2-byte code dump ends
in the little-endian word `0xDF3C` (`svc 0x3c`), with `r0 = 0`: the spec's
Thumb svcBreak scenario. -/
def thumbSvcDump : Dump :=
  { version := 65538, processor := 11, coreId := 0, exceptionType := 2,
    codeDumpSize := 2, stackDumpSize := 0, additionalDataSize := 0,
    registers := List.replicate 16 0 ++ [0x20], codeDump := [0x3c, 0xdf],
    stackDump := [], additionalData := [] }

/-- A decoded dump with `pc = 4`, `cpsr = 0x20` (Thumb) and a declared
code-dump size of 4. -/
def dumpPc : Dump :=
  { version := 65538, processor := 11, coreId := 0, exceptionType := 0,
    codeDumpSize := 4, stackDumpSize := 0, additionalDataSize := 0,
    registers := [0, 0, 0, 0, 0, 0, 0, 0, 0, 0, 0, 0, 0, 0, 0, 4, 0x20],
    codeDump := [], stackDump := [], additionalData := [] }

/-- A decoded Arm11 dump, exception type 2, 19 registers all zero (so
`ifsr = 0`, a code absent from the fault-status table). -/
def dumpFault : Dump :=
  { version := 65538, processor := 11, coreId := 0, exceptionType := 2,
    codeDumpSize := 0, stackDumpSize := 0, additionalDataSize := 0,
    registers := List.replicate 19 0, codeDump := [], stackDump := [],
    additionalData := [] }

/-! ## Helper lemmas -/

theorem ok_bind {ε α β : Type} (a : α) (f : α → Except ε β) :
    (Except.ok a : Except ε α).bind f = f a := rfl

theorem error_bind {ε α β : Type} (e : ε) (f : α → Except ε β) :
    (Except.error e : Except ε α).bind f = .error e := rfl

theorem length_mk (l : List Char) : (String.mk l).length = l.length := rfl

theorem toList_mk (l : List Char) : (String.mk l).toList = l := rfl

theorem hexDigitChar_hex (k : Nat) (h : k < 16) : isLowerHexDigit (hexDigitChar k) = true := by
  interval_cases k <;> decide

theorem hexDigitsRev_all_hex (f : Nat) : ∀ n, (hexDigitsRev f n).all isLowerHexDigit = true := by
  induction f with
  | zero => intro n; rfl
  | succ f ih =>
    intro n
    cases n with
    | zero => rfl
    | succ m =>
      simp only [hexDigitsRev, List.all_cons, Bool.and_eq_true]
      exact ⟨hexDigitChar_hex _ (Nat.mod_lt _ (by norm_num)), ih _⟩

theorem hexDigitsRev_length_le (f : Nat) : ∀ k n, n < 16 ^ k → (hexDigitsRev f n).length ≤ k := by
  induction f with
  | zero => intro k n _; simp [hexDigitsRev]
  | succ f ih =>
    intro k n hn
    cases n with
    | zero => simp [hexDigitsRev]
    | succ m =>
      cases k with
      | zero => simp at hn
      | succ k =>
        simp only [hexDigitsRev, List.length_cons]
        have hdiv : (m + 1) / 16 < 16 ^ k := by
          rw [Nat.div_lt_iff_lt_mul (by norm_num : (0 : Nat) < 16)]
          calc m + 1 < 16 ^ (k + 1) := hn
          _ = 16 ^ k * 16 := by ring
        exact Nat.succ_le_succ (ih k _ hdiv)

theorem natToHex_length_le (n : Nat) (h : n < 4294967296) : (natToHex n).length ≤ 8 := by
  unfold natToHex
  split
  · decide
  · rw [length_mk, List.length_reverse]
    refine hexDigitsRev_length_le n 8 n ?_
    have h16 : (16 : Nat) ^ 8 = 4294967296 := by norm_num
    omega

theorem natToHex_all_hex (n : Nat) : (natToHex n).toList.all isLowerHexDigit = true := by
  unfold natToHex
  split
  · decide
  · rw [toList_mk, List.all_reverse]
    exact hexDigitsRev_all_hex n n

theorem pyPercent08x_length (v : Int) (h0 : 0 ≤ v) (h1 : v < 4294967296) :
    (pyPercent08x v).length = 8 := by
  unfold pyPercent08x zfill
  rw [if_neg (by omega)]
  rw [String.length_append, length_mk, List.length_replicate]
  have hle : (natToHex v.toNat).length ≤ 8 := natToHex_length_le _ (by omega)
  omega

theorem pyPercent08x_all_hex (v : Int) (h0 : 0 ≤ v) :
    (pyPercent08x v).toList.all isLowerHexDigit = true := by
  unfold pyPercent08x zfill
  rw [if_neg (by omega)]
  have hdata : (String.mk (List.replicate (8 - (natToHex v.toNat).length) '0') ++
      natToHex v.toNat).toList =
      List.replicate (8 - (natToHex v.toNat).length) '0' ++ (natToHex v.toNat).toList :=
    String.data_append _ _
  rw [hdata, List.all_append, Bool.and_eq_true]
  constructor
  · have hz : isLowerHexDigit '0' = true := by decide
    simp [List.all_replicate, hz]
  · exact natToHex_all_hex _

/-! ## C4 — magic validation -/

/-- Claim C4, counterexample: on the empty buffer (shorter than 8 bytes)
decoding fails with a `struct.error` from `unpack_from`, not with the
format error the claim promises. -/
theorem decode_empty_not_format_error :
    decode [] = .error .structError ∧ DecodeError.structError ≠ DecodeError.formatError := by
  exact ⟨rfl, by decide⟩

/-- Claim C4, amended: a buffer of at least 8 bytes whose first two
little-endian words are not the magic pair fails with the format error;
a buffer shorter than 8 bytes fails with a `struct.error` instead (decoding
fails either way, and no report is produced). -/
theorem decode_magic_failures (data : List Nat) :
    (data.length < 8 → decode data = .error .structError) ∧
    (8 ≤ data.length → ¬ (u32 data 0 = 0xdeadc0de ∧ u32 data 4 = 0xdeadcafe) →
      decode data = .error .formatError) := by
  constructor
  · intro h
    simp [decode, h]
  · intro h hm
    have h8 : ¬ data.length < 8 := by omega
    simp [decode, h8, hm]

/-- Claim C4, witness: the all-zero 8-byte buffer has wrong magic and is
rejected with the format error. -/
theorem decode_magic_failures_witness :
    decode [0, 0, 0, 0, 0, 0, 0, 0] = .error .formatError :=
  (decode_magic_failures [0, 0, 0, 0, 0, 0, 0, 0]).2 (by decide) (by decide)

/-! ## C5 — version validation -/

/-- Claim C5: a buffer of at least 40 bytes with valid magic and version
below `0x00010002` is rejected with the version error. -/
theorem decode_version_error (data : List Nat) (hlen : 40 ≤ data.length)
    (hm0 : u32 data 0 = 0xdeadc0de) (hm1 : u32 data 4 = 0xdeadcafe)
    (hv : u32 data 8 < 65538) :
    decode data = .error .versionError := by
  have h8 : ¬ data.length < 8 := by omega
  have h40 : ¬ data.length < 40 := by omega
  simp [decode, h8, h40, hm0, hm1, hv]

/-- Claim C5, witness: a 40-byte header with version `0x00010001`. -/
theorem decode_version_error_witness : decode buf40v1 = .error .versionError :=
  decode_version_error buf40v1 (by decide) (by decide) (by decide) (by decide)

/-! ## C1 — region bounds -/

/-- Claim C1, counterexample: a 40-byte buffer with valid magic and version
that declares `codeDumpSize = 4` with no bytes behind it decodes
successfully (its code region silently clamps to 0 bytes); decoding does
not fail, although the buffer is shorter than
`40 + registerByteCount + codeDumpSize + stackDumpSize + additionalDataSize`. -/
theorem decode_oversized_region_accepted :
    (decode buf40code4).isOk = true ∧
    buf40code4.length < 40 + 0 + 4 + 0 + 0 := by
  exact ⟨rfl, by decide⟩

/-- Claim C1, amended: decoding never reads out of bounds, but not by
failing early: past the magic/version checks, the only length-driven
failure is the register array (`unpack_from` raises `struct.error` when the
buffer is shorter than `40 + 4 * registerCount`); the code, stack and
additional-data regions are Python slices that clamp to the buffer, so a
header whose declared sizes extend past the end of the buffer decodes
successfully with each region truncated to the bytes actually available. -/
theorem decode_region_clamping (data : List Nat)
    (hm0 : u32 data 0 = 0xdeadc0de) (hm1 : u32 data 4 = 0xdeadcafe)
    (hlen : 40 ≤ data.length) (hv : 65538 ≤ u32 data 8) :
    (data.length < 40 + 4 * (u32 data 24 / 4) → decode data = .error .structError) ∧
    (40 + 4 * (u32 data 24 / 4) ≤ data.length →
      ∃ d, decode data = .ok d ∧
        d.registers.length = u32 data 24 / 4 ∧
        d.codeDump.length = min (u32 data 28) (data.length - (40 + 4 * (u32 data 24 / 4))) ∧
        d.stackDump.length =
          min (u32 data 32) (data.length - (40 + 4 * (u32 data 24 / 4) + u32 data 28)) ∧
        d.additionalData.length =
          min (u32 data 36)
            (data.length - (40 + 4 * (u32 data 24 / 4) + u32 data 28 + u32 data 32))) := by
  have h8 : ¬ data.length < 8 := by omega
  have h40 : ¬ data.length < 40 := by omega
  have hv' : ¬ u32 data 8 < 65538 := by omega
  constructor
  · intro h
    simp [decode, h8, h40, hm0, hm1, hv', h]
  · intro h
    have h' : ¬ data.length < 40 + 4 * (u32 data 24 / 4) := by omega
    have hd : decode data = .ok
        { version := u32 data 8
          processor := u32 data 12 % 65536
          coreId := u32 data 12 / 65536
          exceptionType := u32 data 16
          codeDumpSize := u32 data 28
          stackDumpSize := u32 data 32
          additionalDataSize := u32 data 36
          registers := (List.range (u32 data 24 / 4)).map (fun i => u32 data (40 + 4 * i))
          codeDump := pySlice data (40 + 4 * (u32 data 24 / 4)) (u32 data 28)
          stackDump := pySlice data (40 + 4 * (u32 data 24 / 4) + u32 data 28) (u32 data 32)
          additionalData :=
            pySlice data (40 + 4 * (u32 data 24 / 4) + u32 data 28 + u32 data 32)
              (u32 data 36) } := by
      simp [decode, h8, h40, hm0, hm1, hv', h']
    refine ⟨_, hd, ?_, ?_, ?_, ?_⟩
    · simp
    · simp [pySlice]
    · simp [pySlice]
    · simp [pySlice]

/-- Claim C1, witness: the clamping conclusion at the 40-byte buffer that
declares a 4-byte code dump it does not contain. -/
theorem decode_region_clamping_witness :
    ∃ d, decode buf40code4 = .ok d ∧
      d.registers.length = u32 buf40code4 24 / 4 ∧
      d.codeDump.length =
        min (u32 buf40code4 28) (buf40code4.length - (40 + 4 * (u32 buf40code4 24 / 4))) ∧
      d.stackDump.length =
        min (u32 buf40code4 32)
          (buf40code4.length - (40 + 4 * (u32 buf40code4 24 / 4) + u32 buf40code4 28)) ∧
      d.additionalData.length =
        min (u32 buf40code4 36)
          (buf40code4.length -
            (40 + 4 * (u32 buf40code4 24 / 4) + u32 buf40code4 28 + u32 buf40code4 32)) :=
  (decode_region_clamping buf40code4 (by decide) (by decide) (by decide) (by decide)).2
    (by decide)

/-! ## C7 — hexdump line count and address field -/

/-- Claim C7, amended: `hexdump` produces exactly `ceil (len / 16)` rows,
and row `j` starts with Python's `"%08x"` rendering of
`baseAddress + 16 * j`, which is exactly 8 lowercase hexadecimal digits
whenever `0 ≤ baseAddress + 16 * j < 2^32` (for values `≥ 2^32` the field
is wider than 8 digits, and negative values carry a sign). -/
theorem hexdump_line_structure (addr : Int) (src : List Nat) :
    (hexdumpLines addr src).length = (src.length + 15) / 16 ∧
    ∀ j, j < (hexdumpLines addr src).length →
      (∃ rest, (hexdumpLines addr src).getD j ("") =
        pyPercent08x (addr + 16 * Int.ofNat j) ++ rest) ∧
      (0 ≤ addr + 16 * Int.ofNat j → addr + 16 * Int.ofNat j < 4294967296 →
        (pyPercent08x (addr + 16 * Int.ofNat j)).length = 8 ∧
        (pyPercent08x (addr + 16 * Int.ofNat j)).toList.all isLowerHexDigit = true) := by
  constructor
  · simp [hexdumpLines]
  · intro j hj
    constructor
    · rw [List.getD_eq_getElem _ _ hj]
      refine ⟨":  " ++ (ljust 49 (hexaCol ((src.drop (16 * j)).take 16)) ++
        ("  |" ++ (textCol ((src.drop (16 * j)).take 16) ++ "|"))), ?_⟩
      have hj' : j < (src.length + 15) / 16 := by simpa [hexdumpLines] using hj
      simp [hexdumpLines, mkLine, String.append_assoc]
    · intro h0 h1
      exact ⟨pyPercent08x_length _ h0 h1, pyPercent08x_all_hex _ h0⟩

/-- Claim C7, witness: one byte at base address 0 gives one row whose
address field is the 8 digits `00000000`. -/
theorem hexdump_line_structure_witness :
    (hexdumpLines 0 [0]).length = 1 ∧
    (∃ rest, (hexdumpLines 0 [0]).getD 0 ("") =
      pyPercent08x (0 + 16 * Int.ofNat 0) ++ rest) ∧
    (pyPercent08x (0 + 16 * Int.ofNat 0)).length = 8 := by
  have h := hexdump_line_structure 0 [0]
  have hlen : (hexdumpLines 0 [0]).length = 1 := by rw [h.1]; rfl
  have h2 := h.2 0 (by rw [hlen]; norm_num)
  exact ⟨hlen, h2.1, (h2.2 (by decide) (by decide)).1⟩

/-- Claim C7, counterexample: at base address `2^32` the single row's
address field is `100000000` — nine digits, not the exactly-8-digit field
the claim promises (Python's `%08x` pads to a minimum of 8 digits but does
not truncate). -/
theorem hexdump_nine_digit_address :
    (hexdumpLines 4294967296 [0]).getD 0 ("") =
      pyPercent08x 4294967296 ++
        ":  00                                                 |.|" ∧
    pyPercent08x 4294967296 = "100000000" ∧
    (pyPercent08x 4294967296).length = 9 :=
  ⟨rfl, rfl, rfl⟩

/-! ## C10 — hexdump of an empty byte sequence -/

/-- Claim C10: for every base address, `hexdump` of an empty byte sequence
produces no rows and returns the empty string (so a zero-length code dump
prints nothing rather than erroring). -/
theorem hexdump_empty (addr : Int) :
    hexdump addr [] = "" ∧ hexdumpLines addr [] = [] :=
  ⟨rfl, rfl⟩

/-! ## C8 — code-dump start address -/

theorem land32_eq_ite (n : Nat) : n &&& 32 = if n.testBit 5 then 32 else 0 := by
  apply Nat.eq_of_testBit_eq
  intro j
  rw [Nat.testBit_and]
  by_cases hj : j = 5
  · subst hj
    cases hb : n.testBit 5 <;> simp [hb]
  · have h32 : Nat.testBit 32 j = false := by
      have h2 : (32 : Nat) = 2 ^ 5 := by norm_num
      rw [h2, Nat.testBit_two_pow]
      simp [Ne.symm hj]
    cases hb : n.testBit 5 <;> simp [h32, hb]

theorem land32_ne_zero_iff (n : Nat) : (n &&& 32 ≠ 0) ↔ n.testBit 5 = true := by
  rw [land32_eq_ite]
  cases hb : n.testBit 5 <;> simp

/-- Claim C8: whenever the register tuple reaches index 16, the effective
start address the renderer computes for the code-dump section is
`pc − codeDumpSize + 2` in Thumb mode (cpsr bit 5 set) and
`pc − codeDumpSize + 4` otherwise. -/
theorem code_start_addr_formula (d : Dump) (h : 16 < d.registers.length) :
    codeStartAddr d = .ok ((d.registers.getD 15 0 : Int) - (d.codeDumpSize : Int) +
      (if (d.registers.getD 16 0).testBit 5 then 2 else 4)) := by
  have h15 : 15 < d.registers.length := by omega
  simp only [codeStartAddr, regGet, if_pos h, if_pos h15, ok_bind]
  have hiff := land32_ne_zero_iff (d.registers.getD 16 0)
  by_cases hb : (d.registers.getD 16 0).testBit 5 = true
  · rw [if_pos (hiff.mpr hb), if_pos hb]
  · rw [if_neg (fun hc => hb (hiff.mp hc)), if_neg hb]

/-- Claim C8, witness: a Thumb-mode dump with `pc = 4` and a 4-byte code
dump gives start address `4 - 4 + 2 = 2`. -/
theorem code_start_addr_formula_witness : codeStartAddr dumpPc = .ok 2 := by
  rw [code_start_addr_formula dumpPc (by decide)]
  rfl

/-! ## C2 — Thumb svcBreak detection (dead branch) -/

/-- Claim C2: the code can never take the Thumb svcBreak path. On a decoded
dump with exception type 2, Thumb flag set (`cpsr = 0x20`) and a code dump
whose last two bytes read `0xDF3C` little-endian, `main` produces no
svcBreak suffix at all: the guard `(registers[16] & 0x20) == 1` compares a
value that is always 0 or 32 against 1, so the Thumb arm is dead code. -/
theorem thumb_svcbreak_branch_dead :
    renderTypeDetails thumbSvcDump = .ok ("") ∧
    unpackU16first (lastN 2 thumbSvcDump.codeDump) = .ok 0xdf3c ∧
    thumbSvcDump.registers.getD 16 0 &&& 0x20 = 0x20 :=
  ⟨rfl, rfl, rfl⟩

/-! ## C6 — fault-status selection and lookup -/

/-- Claim C6: for an Arm11 dump with exception type ≥ 2 (and the status
registers present), the fault-status line takes register 18 for type 2 and
register 17 otherwise, masks the value to its low 4 bits and looks it up in
`faultStatusSources`; a code absent from the table renders `"Unknown"`, and
the section never raises. -/
theorem fault_status_lookup (d : Dump) (hp : d.processor = 11)
    (he : 2 ≤ d.exceptionType) (hr : 18 < d.registers.length) :
    renderFaultStatus d = .ok (["Fault status: " ++
      (faultStatusSources
        ((d.registers.getD (if d.exceptionType = 2 then 18 else 17) 0) &&& 0xf)).getD
        ("Unknown")]) ∧
    (faultStatusSources
        ((d.registers.getD (if d.exceptionType = 2 then 18 else 17) 0) &&& 0xf) = none →
      renderFaultStatus d = .ok (["Fault status: Unknown"])) := by
  have hidx : (if d.exceptionType = 2 then 18 else 17) < d.registers.length := by
    split <;> omega
  have h1 : renderFaultStatus d = .ok (["Fault status: " ++
      (faultStatusSources
        ((d.registers.getD (if d.exceptionType = 2 then 18 else 17) 0) &&& 0xf)).getD
        ("Unknown")]) := by
    simp only [renderFaultStatus, if_pos (And.intro hp he), regGet, if_pos hidx, ok_bind]
  refine ⟨h1, fun hnone => ?_⟩
  rw [h1, hnone]
  rfl

/-- Claim C6, witness: an Arm11 type-2 dump with `ifsr = 0` (a code not in
the table) renders `"Unknown"` without error. -/
theorem fault_status_lookup_witness :
    renderFaultStatus dumpFault = .ok (["Fault status: Unknown"]) :=
  (fault_status_lookup dumpFault (by decide) (by decide) (by decide)).2 (by decide)

/-! ## C9 — the Imprecise External Abort entry is unreachable -/

/-- Claim C9: the fault-status lookup key is masked to 4 bits, so it can
never equal the 5-bit table key `0b10110`; no rendered fault-status line
ever shows `"Imprecise External Abort"`. -/
theorem fault_status_never_imprecise :
    (∀ x : Nat, ((faultStatusSources (x &&& 0xf)).getD ("Unknown") ==
      "Imprecise External Abort") = false) ∧
    (∀ (d : Dump) (ls : List String), renderFaultStatus d = .ok ls →
      "Fault status: Imprecise External Abort" ∉ ls) := by
  constructor
  · intro x
    have hk : x &&& 0xf ≤ 15 := Nat.and_le_right
    revert hk
    generalize x &&& 0xf = k
    intro hk
    interval_cases k <;> rfl
  · intro d ls h hmem
    unfold renderFaultStatus at h
    split at h
    · cases hreg : regGet d (if d.exceptionType = 2 then 18 else 17) with
      | error e =>
        rw [hreg, error_bind] at h
        exact absurd h (by simp)
      | ok xfsr =>
        rw [hreg, ok_bind] at h
        have hls : ls = ["Fault status: " ++
            (faultStatusSources (xfsr &&& 0xf)).getD ("Unknown")] := by
          cases h
          rfl
        subst hls
        simp only [List.mem_singleton] at hmem
        have hk : xfsr &&& 0xf ≤ 15 := Nat.and_le_right
        revert hmem
        revert hk
        generalize xfsr &&& 0xf = k
        intro hk
        interval_cases k <;> decide
    · cases h
      simp at hmem

/-! ## C3 — register accesses versus the decoded register count -/

theorem ok_bindM {ε α β : Type} (a : α) (f : α → Except ε β) :
    ((Except.ok a : Except ε α) >>= f) = f a := rfl

theorem bind_ne {ε α β : Type} {x : Except ε α} {f : α → Except ε β} {e : ε}
    (hx : x ≠ .error e) (hf : ∀ a, f a ≠ .error e) : x.bind f ≠ .error e := by
  cases x with
  | ok a =>
    rw [ok_bind]
    exact hf a
  | error e' =>
    rw [error_bind]
    intro hc
    apply hx
    injection hc with h'
    rw [h']

theorem ne_error_of_ok {ε α : Type} {x : Except ε α} (h : ∃ b, x = .ok b) (e : ε) :
    x ≠ .error e := by
  obtain ⟨b, hb⟩ := h
  rw [hb]
  simp

theorem regGet_ok (d : Dump) (i : Nat) (h : i < d.registers.length) :
    regGet d i = .ok (d.registers.getD i 0) := by
  simp [regGet, h]

theorem unpack32_ne_idx (bs : List Nat) : unpackU32first bs ≠ .error .indexError := by
  unfold unpackU32first
  split <;> simp

theorem unpack16_ne_idx (bs : List Nat) : unpackU16first bs ≠ .error .indexError := by
  unfold unpackU16first
  split <;> simp

theorem unpack64_ne_idx (bs : List Nat) (off : Nat) :
    unpackU64At bs off ≠ .error .indexError := by
  unfold unpackU64At
  split <;> simp

theorem ascii_ne_idx (bs : List Nat) : asciiDecode bs ≠ .error .indexError := by
  unfold asciiDecode
  split <;> simp

theorem svcBreakDetail_ne_idx (d : Dump) (h : 0 < d.registers.length) :
    svcBreakDetail d ≠ .error .indexError := by
  rw [svcBreakDetail, regGet_ok d 0 h, ok_bind]
  simp

theorem renderTypeDetails_ne_idx (d : Dump) (h : 20 < d.registers.length) :
    renderTypeDetails d ≠ .error .indexError := by
  unfold renderTypeDetails
  split
  · rw [regGet_ok d 16 (by omega), ok_bind]
    split
    · apply bind_ne (unpack32_ne_idx _)
      intro instr
      split
      · simp
      · split
        · exact svcBreakDetail_ne_idx d (by omega)
        · simp
    · split
      · apply bind_ne (unpack16_ne_idx _)
        intro instr
        split
        · exact svcBreakDetail_ne_idx d (by omega)
        · simp
      · simp
  · split
    · rw [regGet_ok d 20 (by omega), ok_bind]
      split <;> simp
    · simp

theorem renderFaultStatus_ne_idx (d : Dump) (h : 18 < d.registers.length) :
    renderFaultStatus d ≠ .error .indexError := by
  unfold renderFaultStatus
  split
  · have hidx : (if d.exceptionType = 2 then 18 else 17) < d.registers.length := by
      split <;> omega
    rw [regGet_ok d _ hidx, ok_bind]
    simp
  · simp

theorem renderAdditional_ne_idx (outName : String) (d : Dump) :
    renderAdditional outName d ≠ .error .indexError := by
  unfold renderAdditional
  split
  · split
    · apply bind_ne (ascii_ne_idx _)
      intro nm
      apply bind_ne (unpack64_ne_idx _ _)
      intro pid
      simp
    · simp
  · simp

theorem nameGet_ok (i : Nat) (h : i < 23) : ∃ s, nameGet i = .ok s := by
  refine ⟨registerNames.getD i (""), ?_⟩
  rw [nameGet, if_pos]
  rw [show registerNames.length = 23 from rfl]
  exact h

theorem registerPairLines_ok (d : Dump) (i : Nat) (h1 : i + 1 < d.registers.length)
    (h2 : i + 1 < 23) : ∃ ls, registerPairLines d i = .ok ls := by
  obtain ⟨sA, hA⟩ := nameGet_ok i (by omega)
  obtain ⟨sB, hB⟩ := nameGet_ok (i + 1) h2
  rw [registerPairLines, hA, ok_bind, regGet_ok d i (by omega), ok_bind, hB, ok_bind,
    regGet_ok d (i + 1) h1, ok_bind]
  exact ⟨_, rfl⟩

theorem mapM_ok {α β ε : Type} (f : α → Except ε β) :
    ∀ l : List α, (∀ a ∈ l, ∃ b, f a = .ok b) → ∃ bs, l.mapM f = .ok bs := by
  intro l
  induction l with
  | nil => exact fun _ => ⟨[], rfl⟩
  | cons a l ih =>
    intro h
    obtain ⟨b, hb⟩ := h a (List.mem_cons_self a l)
    obtain ⟨bs, hbs⟩ := ih (fun x hx => h x (List.mem_cons_of_mem a hx))
    refine ⟨b :: bs, ?_⟩
    rw [List.mapM_cons, hb, ok_bindM, hbs, ok_bindM]
    rfl

theorem registerTableLines_ok (d : Dump) (h2 : d.registers.length ≤ 23) :
    ∃ ls, registerTableLines d = .ok ls := by
  obtain ⟨lss, hmap⟩ := mapM_ok (fun j => registerPairLines d (2 * j))
    (List.range (d.registers.length / 2)) (fun j hj => by
      have hj' : j < d.registers.length / 2 := List.mem_range.mp hj
      exact registerPairLines_ok d (2 * j) (by omega) (by omega))
  by_cases hodd : d.registers.length % 2 = 1
  · obtain ⟨nm, hnm⟩ := nameGet_ok (d.registers.length - 1) (by omega)
    rw [registerTableLines, hmap, ok_bind, if_pos hodd, hnm, ok_bind,
      regGet_ok d (d.registers.length - 1) (by omega), ok_bind, ok_bind]
    exact ⟨_, rfl⟩
  · rw [registerTableLines, hmap, ok_bind, if_neg hodd, ok_bind]
    exact ⟨_, rfl⟩

theorem farLines_ne_idx (d : Dump) (h : 19 < d.registers.length) :
    farLines d ≠ .error .indexError := by
  unfold farLines
  split
  · rw [regGet_ok d 19 (by omega), ok_bind, regGet_ok d 17 (by omega), ok_bind]
    simp
  · simp

theorem codeStackLines_ok (d : Dump) (h : 16 < d.registers.length) :
    ∃ ls, codeStackLines d = .ok ls := by
  rw [codeStackLines, codeStartAddr, regGet_ok d 16 h, ok_bind,
    regGet_ok d 15 (by omega), ok_bind, ok_bind, regGet_ok d 13 (by omega), ok_bind]
  exact ⟨_, rfl⟩

/-- Claim C3, counterexample: a decoded dump whose register tuple has
exactly 16 entries (indices 0–15) makes the renderer read index 16 — equal
to the decoded count — and fail with an `IndexError`: the accesses to
registers 16–20 are not guarded by the decoded count. -/
theorem render_reads_past_register_count :
    render ("out") dump16 = .error .indexError ∧ dump16.registers.length = 16 :=
  ⟨rfl, rfl⟩

/-- Claim C3, amended: the register-table section itself never reads an
index beyond the decoded count, but the renderer as a whole reads registers
13, 15 and 16 unconditionally and 17–20 under processor/exception-type
conditions, regardless of the count. Only when the decoded count covers
them all — `21 ≤ count ≤ 23` (23 bounds the name table) — is every register
access in bounds, and then no `IndexError` can occur. -/
theorem render_no_index_error (outName : String) (d : Dump)
    (h1 : 20 < d.registers.length) (h2 : d.registers.length ≤ 23) :
    render outName d ≠ .error .indexError := by
  unfold render
  apply bind_ne (renderTypeDetails_ne_idx d (by omega))
  intro details
  apply bind_ne (renderFaultStatus_ne_idx d (by omega))
  intro faultLs
  apply bind_ne (renderAdditional_ne_idx outName d)
  intro extraLs
  apply bind_ne (ne_error_of_ok (registerTableLines_ok d h2) _)
  intro tableLs
  apply bind_ne (farLines_ne_idx d (by omega))
  intro farLs
  apply bind_ne (ne_error_of_ok (codeStackLines_ok d (by omega)) _)
  intro csLs
  simp

/-- Claim C3, witness: with all 21 required registers present (an Arm9 dump
with 21 registers), rendering raises no `IndexError`. -/
theorem render_no_index_error_witness : render ("out") dump21 ≠ .error .indexError :=
  render_no_index_error ("out") dump21 (by decide) (by decide)

end Luma3ds
